import Mathlib

/-!
Verification of the self-healing speech I/O supervision engine of the
J.A.R.V.I.S repository.  Each definition is a shallow embedding of one
Python function or method from `src/JARVIS/audio/`; concurrency is made
explicit by passing the environment's view of shared flags as functions
of (discrete) time, and fallible delegated operations are modelled as
`Except` values supplied by the caller.
-/

/-! ## AudioCoordinator — src/JARVIS/audio/coordinator.py

`AudioCoordinator.__init__` sets `is_speaking = is_listening = False` and
zeroes the statistics counters.  `speak` busy-waits in 0.1 s steps for up
to 5 s (50 ticks) while `is_listening` holds, `listen` waits up to 10 s
(100 ticks) while `is_speaking` holds.  The other engine's flag is a
shared mutable boolean; we model the sequence of values read from it as a
function `env : Nat → Bool`, where `env i` is the value observed at the
i-th read — the wait loop's reads followed by the separate post-loop
`if` re-check. -/

structure CoordState where
  is_speaking : Bool
  is_listening : Bool
  speak_calls : Nat
  listen_calls : Nat
  conflicts_prevented : Nat
  deriving Repr, DecidableEq

/-- Initial coordinator state (`AudioCoordinator.__init__`). -/
def CoordState.init : CoordState :=
  { is_speaking := false, is_listening := false,
    speak_calls := 0, listen_calls := 0, conflicts_prevented := 0 }

/-- Exit index of the busy-wait loop `while flag and waited < max_wait`:
starting from read index `i` with `fuel` remaining ticks, returns the
index of the loop's last flag read — the first read that sees the flag
cleared, or read index `i + fuel` when the tick budget runs out first.
The post-loop `if` statement re-reads the shared flag afterwards; that
separate read has index `waitExit env fuel i + 1`. -/
def waitExit (env : Nat → Bool) : Nat → Nat → Nat
  | 0, i => i
  | fuel + 1, i => if env i then waitExit env fuel (i + 1) else i

/-- `AudioCoordinator.speak` (coordinator.py lines 30-61).
`listeningEnv i` is the value of `self.is_listening` at the i-th read;
reads 0 to `exitIdx` belong to the wait loop, and the post-loop
`if self.is_listening` is a separate, fresh read of the shared flag at
index `exitIdx + 1` — a concurrent `listen` may have set the flag again
between the loop's last read and this re-check.  `ttsOutcome` is the
delegated `_tts_speak` call, which may raise (`Except.error`) — the
`except` clause returns `False` and the `finally` clause clears
`is_speaking` either way. -/
def AudioCoordinator.speak (s : CoordState) (listeningEnv : Nat → Bool)
    (ttsOutcome : Except Unit Bool) : CoordState × Bool :=
  let exitIdx := waitExit listeningEnv 50 0
  let stillListening := listeningEnv (exitIdx + 1)
  let s1 : CoordState :=
    { s with is_listening := stillListening,
             conflicts_prevented :=
               s.conflicts_prevented + (if stillListening then 1 else 0) }
  let s2 : CoordState := { s1 with is_speaking := true, speak_calls := s1.speak_calls + 1 }
  let result := match ttsOutcome with
    | Except.ok b => b
    | Except.error _ => false
  ({ s2 with is_speaking := false }, result)

/-- `AudioCoordinator.listen` (coordinator.py lines 63-94).
`speakingEnv i` is the value of `self.is_speaking` at the i-th read;
reads 0 to `exitIdx` belong to the wait loop, and the post-loop
`if self.is_speaking` is a separate, fresh read at index `exitIdx + 1`.
`sttOutcome` is the delegated `stt_listener.listen` call — the `except`
clause returns `None` and the `finally` clause clears `is_listening`
either way. -/
def AudioCoordinator.listen (s : CoordState) (speakingEnv : Nat → Bool)
    (sttOutcome : Except Unit (Option String)) : CoordState × Option String :=
  let exitIdx := waitExit speakingEnv 100 0
  let stillSpeaking := speakingEnv (exitIdx + 1)
  let s1 : CoordState :=
    { s with is_speaking := stillSpeaking,
             conflicts_prevented :=
               s.conflicts_prevented + (if stillSpeaking then 1 else 0) }
  let s2 : CoordState := { s1 with is_listening := true, listen_calls := s1.listen_calls + 1 }
  let result := match sttOutcome with
    | Except.ok r => r
    | Except.error _ => none
  ({ s2 with is_listening := false }, result)

theorem waitExit_le (env : Nat → Bool) : ∀ fuel i, waitExit env fuel i ≤ i + fuel := by
  intro fuel
  induction fuel with
  | zero => intro i; simp [waitExit]
  | succ n ih =>
    intro i
    simp only [waitExit]
    split
    · calc waitExit env n (i + 1) ≤ (i + 1) + n := ih (i + 1)
        _ = i + (n + 1) := by omega
    · omega

theorem waitExit_sees_false (env : Nat → Bool) :
    ∀ fuel i j, i ≤ j → j < i + fuel → env j = false →
      env (waitExit env fuel i) = false := by
  intro fuel
  induction fuel with
  | zero => intro i j hij hlt _; omega
  | succ n ih =>
    intro i j hij hlt hj
    simp only [waitExit]
    by_cases hi : env i
    · simp only [hi, if_true]
      have hne : i ≠ j := by
        intro h; rw [h] at hi; rw [hi] at hj; exact Bool.true_eq_false.mp hj
      exact ih (i + 1) j (by omega) (by omega) hj
    · simp only [hi]
      simpa using hi

/-- C1: for every call to `AudioCoordinator.speak` and every call to
`AudioCoordinator.listen` — including calls in which the delegated
TTS/STT operation raises an exception — immediately after the call
returns, the coordinator's `is_speaking` flag (for `speak`)
resp. `is_listening` flag (for `listen`) is false: the `finally` clause
unconditionally clears the flag the operation set. -/
theorem coordinator_flags_clear_after_return :
    ∀ (s : CoordState) (envL envS : Nat → Bool)
      (tts : Except Unit Bool) (stt : Except Unit (Option String)),
      (AudioCoordinator.speak s envL tts).1.is_speaking = false ∧
      (AudioCoordinator.listen s envS stt).1.is_listening = false := by
  intro s envL envS tts stt
  exact ⟨rfl, rfl⟩

/-- Counterexample to C6's last conjunct.  The Python's post-wait
`if self.is_listening` is a separate read of the shared flag: with the
flag clear at read 0 (well within the 5 s bound, so "the flag clears
within the bound") but set again by a concurrent `listen` before the
re-check at read 1, `speak` still increments `conflicts_prevented` — the
counter is not unchanged. -/
theorem coordinator_conflict_counter_counterexample :
    (∃ i, i < 50 ∧ (fun i => decide (0 < i)) i = false) ∧
    ¬ ((AudioCoordinator.speak CoordState.init (fun i => decide (0 < i))
        (Except.ok true)).1.conflicts_prevented =
      CoordState.init.conflicts_prevented) :=
  ⟨⟨0, by omega, rfl⟩, by decide⟩

/-- C6 as amended — changed only where the counterexample forces it:
`AudioCoordinator.speak` waits at most 5 s (50 ticks of 0.1 s) for
`is_listening` to clear and `AudioCoordinator.listen` waits at most 10 s
(100 ticks) for `is_speaking` to clear; in either direction, if the flag
is still set through the bound and the post-wait re-check, the operation
proceeds anyway and `conflicts_prevented` is incremented by exactly 1;
and if the flag is observed clear at the separate post-wait re-check —
rather than merely at some read within the bound — the counter is
unchanged. -/
theorem coordinator_wait_bounds_amended :
    ∀ (s : CoordState) (envL envS : Nat → Bool)
      (tts : Except Unit Bool) (stt : Except Unit (Option String)),
      waitExit envL 50 0 ≤ 50 ∧
      waitExit envS 100 0 ≤ 100 ∧
      ((∀ i, i ≤ 51 → envL i = true) →
        (AudioCoordinator.speak s envL tts).1.conflicts_prevented =
          s.conflicts_prevented + 1) ∧
      (envL (waitExit envL 50 0 + 1) = false →
        (AudioCoordinator.speak s envL tts).1.conflicts_prevented =
          s.conflicts_prevented) ∧
      ((∀ i, i ≤ 101 → envS i = true) →
        (AudioCoordinator.listen s envS stt).1.conflicts_prevented =
          s.conflicts_prevented + 1) ∧
      (envS (waitExit envS 100 0 + 1) = false →
        (AudioCoordinator.listen s envS stt).1.conflicts_prevented =
          s.conflicts_prevented) := by
  intro s envL envS tts stt
  refine ⟨by simpa using waitExit_le envL 50 0, by simpa using waitExit_le envS 100 0,
    ?_, ?_, ?_, ?_⟩
  · intro hall
    have hle : waitExit envL 50 0 ≤ 50 := by simpa using waitExit_le envL 50 0
    have h : envL (waitExit envL 50 0 + 1) = true := hall _ (by omega)
    simp [AudioCoordinator.speak, h]
  · intro h
    simp [AudioCoordinator.speak, h]
  · intro hall
    have hle : waitExit envS 100 0 ≤ 100 := by simpa using waitExit_le envS 100 0
    have h : envS (waitExit envS 100 0 + 1) = true := hall _ (by omega)
    simp [AudioCoordinator.listen, h]
  · intro h
    simp [AudioCoordinator.listen, h]

/-- Witness for the amended C6 at concrete inputs: with the other flag
held set through bound and re-check the counter goes from 0 to 1, and
with it clear at the re-check the counter stays 0. -/
theorem coordinator_wait_bounds_amended_witness :
    (AudioCoordinator.speak CoordState.init (fun _ => true)
      (Except.ok true)).1.conflicts_prevented = CoordState.init.conflicts_prevented + 1 ∧
    (AudioCoordinator.listen CoordState.init (fun _ => false)
      (Except.ok none)).1.conflicts_prevented = CoordState.init.conflicts_prevented :=
  ⟨(coordinator_wait_bounds_amended CoordState.init (fun _ => true)
      (fun _ => false) (Except.ok true) (Except.ok none)).2.2.1 (fun _ _ => rfl),
   (coordinator_wait_bounds_amended CoordState.init (fun _ => true)
      (fun _ => false) (Except.ok true) (Except.ok none)).2.2.2.2.2 rfl⟩

/-! ## TextToSpeechEngine.speak — src/JARVIS/audio/tts_selenium.py lines 668-690

`speak(text)` returns `False` without touching the queue when the text is
falsy (None or empty), strips to empty, or the engine is shutting down;
otherwise it tries to put the text on the bounded queue
(`Queue(maxsize=100)`), returning `True` on success, and on a full queue
increments `dropped_messages` and returns `False`. -/

/-- Python `str.strip()` whitespace set: space, \t, \n, \r, \x0b, \x0c. -/
def pyIsSpace (c : Char) : Bool :=
  c = ' ' || c = '\t' || c = '\n' || c = '\r' || c = '\x0b' || c = '\x0c'

/-- Python `str.strip()`: remove leading and trailing whitespace. -/
def pyStrip (s : String) : String :=
  ⟨((s.data.dropWhile pyIsSpace).reverse.dropWhile pyIsSpace).reverse⟩

/-- `Queue(maxsize=100)` from `TextToSpeechEngine.__init__`. -/
def ttsQueueCapacity : Nat := 100

structure TTSState where
  shutdown_flag : Bool
  speech_queue : List String
  dropped_messages : Nat
  deriving Repr, DecidableEq

/-- `TextToSpeechEngine.speak` (tts_selenium.py lines 668-690). `text` is
`Option String` so that a Python `None` argument is representable; the
guard `not text or not text.strip() or self.shutdown_flag` rejects it.
`speech_queue.put(..., timeout=0.5)` raises `Full` on a full queue. -/
def TextToSpeechEngine.speak (s : TTSState) (text : Option String) : TTSState × Bool :=
  match text with
  | none => (s, false)
  | some t =>
    if t.isEmpty || (pyStrip t).isEmpty || s.shutdown_flag then
      (s, false)
    else if s.speech_queue.length < ttsQueueCapacity then
      ({ s with speech_queue := s.speech_queue ++ [t] }, true)
    else
      ({ s with dropped_messages := s.dropped_messages + 1 }, false)

/-- C10: every call to `TextToSpeechEngine.speak` with text that is None,
empty, or consists only of whitespace, or made while `shutdown_flag` is
set, returns `False` and leaves the speech queue and the
`dropped_messages` counter unchanged; and `True` is returned only when
the text was actually appended to the queue (which also requires
`shutdown_flag` to be clear). -/
theorem tts_speak_rejects_blank_or_shutdown (s : TTSState) (text : Option String) :
    ((text = none ∨ (∃ t, text = some t ∧ (pyStrip t).isEmpty = true) ∨
        s.shutdown_flag = true) →
      (TextToSpeechEngine.speak s text).2 = false ∧
      (TextToSpeechEngine.speak s text).1.speech_queue = s.speech_queue ∧
      (TextToSpeechEngine.speak s text).1.dropped_messages = s.dropped_messages) ∧
    ((TextToSpeechEngine.speak s text).2 = true →
      ∃ t, text = some t ∧
        (TextToSpeechEngine.speak s text).1.speech_queue = s.speech_queue ++ [t] ∧
        s.shutdown_flag = false) := by
  constructor
  · rintro (rfl | ⟨t, rfl, ht⟩ | hsd)
    · exact ⟨rfl, rfl, rfl⟩
    · simp [TextToSpeechEngine.speak, ht]
    · cases text with
      | none => exact ⟨rfl, rfl, rfl⟩
      | some t => simp [TextToSpeechEngine.speak, hsd]
  · intro hr
    cases text with
    | none => simp [TextToSpeechEngine.speak] at hr
    | some t =>
      refine ⟨t, rfl, ?_⟩
      by_cases hguard : (t.isEmpty || (pyStrip t).isEmpty || s.shutdown_flag) = true
      · simp [TextToSpeechEngine.speak, hguard] at hr
      · by_cases hlen : s.speech_queue.length < ttsQueueCapacity
        · have hsd : s.shutdown_flag = false := by
            simp only [Bool.or_eq_true, not_or, Bool.not_eq_true] at hguard
            exact hguard.2
          constructor
          · simp [TextToSpeechEngine.speak, hguard, hlen]
          · exact hsd
        · simp [TextToSpeechEngine.speak, hguard, hlen] at hr

/-- Witness for C10: a whitespace-only text is rejected with the state
untouched, and a non-blank text on a non-full queue is enqueued. -/
theorem tts_speak_rejects_witness :
    ((TextToSpeechEngine.speak ⟨false, [], 0⟩ (some "  ")).2 = false ∧
     (TextToSpeechEngine.speak ⟨false, [], 0⟩ (some "  ")).1.speech_queue = [] ∧
     (TextToSpeechEngine.speak ⟨false, [], 0⟩ (some "  ")).1.dropped_messages = 0) ∧
    (∃ t, (some "hello" : Option String) = some t ∧
     (TextToSpeechEngine.speak ⟨false, [], 0⟩ (some "hello")).1.speech_queue = [] ++ [t] ∧
     (false : Bool) = false) :=
  ⟨(tts_speak_rejects_blank_or_shutdown ⟨false, [], 0⟩ (some "  ")).1
      (Or.inr (Or.inl ⟨"  ", rfl, by decide⟩)),
   (tts_speak_rejects_blank_or_shutdown ⟨false, [], 0⟩ (some "hello")).2 (by decide)⟩

/-! ## Orphan sweep — src/JARVIS/audio/stt.py lines 361-389 and
tts_selenium.py lines 317-370 (`_continuous_cleanup_watchdog`)

Each sweep iterates over all OS processes; a process is killed only if
its name contains the renderer executable name, its command line carries
this engine's marker (`jarvis_stt_`/`jarvis_tts_` and the owning PID),
its PID is not in the tracked set `chrome_pids`, and it is either
parentless or older than 600 seconds. -/

structure ProcInfo where
  pid : Nat
  isRendererName : Bool
  markerMatch : Bool
  parentAlive : Bool
  ageSeconds : Nat
  deriving Repr, DecidableEq

/-- Kill decision of one iteration of the sweep's process loop.  The
Python falls through from the `NoSuchProcess` handler to the age test
when the PID is tracked, hence the two separate membership checks. -/
def sweepKills (tracked : List Nat) (p : ProcInfo) : Bool :=
  if !p.isRendererName then false
  else if !p.markerMatch then false
  else if !p.parentAlive && !(tracked.contains p.pid) then true
  else if !(tracked.contains p.pid) && decide (600 < p.ageSeconds) then true
  else false

/-- One pass of the cleanup watchdog's scan: the processes it kills. -/
def sweepOrphans (tracked : List Nat) (procs : List ProcInfo) : List ProcInfo :=
  procs.filter (sweepKills tracked)

/-- C3: no PID present in the engine's tracked set `chrome_pids` at the
time of the scan is ever killed by the orphan sweep — every process the
sweep kills has a PID outside the tracked set. -/
theorem sweep_never_kills_tracked :
    ∀ (tracked : List Nat) (procs : List ProcInfo),
      (sweepOrphans tracked procs).all (fun p => !(tracked.contains p.pid)) = true := by
  intro tracked procs
  rw [List.all_eq_true]
  intro p hp
  have hk : sweepKills tracked p = true := List.of_mem_filter hp
  unfold sweepKills at hk
  split at hk
  · exact absurd hk (by simp)
  · split at hk
    · exact absurd hk (by simp)
    · split at hk
      · next h =>
        simp only [Bool.and_eq_true] at h
        simpa using h.2
      · split at hk
        · next h =>
          simp only [Bool.and_eq_true] at h
          simpa using h.1
        · exact absurd hk (by simp)

/-! ## Driver creation with retry — src/JARVIS/audio/stt.py lines 457-469
and tts_selenium.py lines 488-506 (`_create_driver_with_retry`)

`for attempt in range(3)`: before every attempt except the first it
force-kills stray chromedriver executables, tries to create the driver,
and on failure sleeps 5 s unless this was the last attempt, in which case
the exception is re-raised. -/

inductive DriverEvent
  | killStrays
  | attempt (i : Nat)
  | backoff5s
  deriving Repr, DecidableEq

/-- The retry loop from attempt index `a` with `fuel` iterations left;
`outcome i` says whether creation attempt `i` succeeds.  Returns the
ordered event trace and either the index of the successful attempt or
`Except.error` carrying the index of the last, re-raised failure. -/
def createFrom (outcome : Nat → Bool) (maxRetries : Nat) :
    Nat → Nat → List DriverEvent × Except Nat Nat
  | 0, a => ([], Except.error a)
  | fuel + 1, a =>
    let pre : List DriverEvent := if 0 < a then [DriverEvent.killStrays] else []
    if outcome a then
      (pre ++ [DriverEvent.attempt a], Except.ok a)
    else if a < maxRetries - 1 then
      let next := createFrom outcome maxRetries fuel (a + 1)
      (pre ++ [DriverEvent.attempt a, DriverEvent.backoff5s] ++ next.1, next.2)
    else
      (pre ++ [DriverEvent.attempt a], Except.error a)

/-- `_create_driver_with_retry(max_retries=3)`. -/
def createDriverWithRetry (outcome : Nat → Bool) : List DriverEvent × Except Nat Nat :=
  createFrom outcome 3 3 0

/-- Number of creation attempts in an event trace. -/
def countAttempts (evs : List DriverEvent) : Nat :=
  (evs.filter (fun e => match e with | DriverEvent.attempt _ => true | _ => false)).length

theorem createFrom_attempts_le (outcome : Nat → Bool) (m : Nat) :
    ∀ fuel a, countAttempts (createFrom outcome m fuel a).1 ≤ fuel := by
  intro fuel
  induction fuel with
  | zero => intro a; simp [createFrom, countAttempts]
  | succ n ih =>
    intro a
    simp only [createFrom]
    split
    · split <;> simp [countAttempts]
    · split
      · have := ih (a + 1)
        split <;> simp_all [countAttempts]
      · split <;> simp [countAttempts]

/-- C7: renderer driver creation makes at most 3 attempts; when every
attempt fails, the full behaviour is: attempt 0, 5 s backoff, kill
strays, attempt 1, 5 s backoff, kill strays, attempt 2, and the
exception of the last attempt is propagated (`Except.error 2`); and a
first-attempt success performs no kill and no backoff. -/
theorem driver_retry_bounded_and_propagates (outcome : Nat → Bool) :
    countAttempts (createDriverWithRetry outcome).1 ≤ 3 ∧
    (outcome 0 = false → outcome 1 = false → outcome 2 = false →
      createDriverWithRetry outcome =
        ([DriverEvent.attempt 0, DriverEvent.backoff5s, DriverEvent.killStrays,
          DriverEvent.attempt 1, DriverEvent.backoff5s, DriverEvent.killStrays,
          DriverEvent.attempt 2], Except.error 2)) ∧
    (outcome 0 = true →
      createDriverWithRetry outcome = ([DriverEvent.attempt 0], Except.ok 0)) := by
  refine ⟨createFrom_attempts_le outcome 3 3 0, ?_, ?_⟩
  · intro h0 h1 h2
    simp [createDriverWithRetry, createFrom, h0, h1, h2]
  · intro h0
    simp [createDriverWithRetry, createFrom, h0]

/-- Witness for C7: with always-failing creation the trace is exactly the
three attempts with backoffs and kills, ending in a propagated error. -/
theorem driver_retry_witness :
    createDriverWithRetry (fun _ => false) =
      ([DriverEvent.attempt 0, DriverEvent.backoff5s, DriverEvent.killStrays,
        DriverEvent.attempt 1, DriverEvent.backoff5s, DriverEvent.killStrays,
        DriverEvent.attempt 2], Except.error 2) :=
  (driver_retry_bounded_and_propagates (fun _ => false)).2.1 rfl rfl rfl

/-! ## Restart watchdog with storm backoff — src/JARVIS/audio/stt.py
lines 391-417 (`_chrome_restart_watchdog`) with the counter updates of
`_safe_restart_driver` (lines 427-455)

Each watchdog tick sleeps 60 s, then: if the last restart was less than
300 s ago and `restart_count > 2`, it sleeps a further 600 s, zeroes
`restart_count` and re-evaluates (no restart that tick); otherwise, if
the last restart is at least 300 s old it zeroes `restart_count`, and
then its liveness/performance/scheduled checks may call
`_safe_restart_driver`, which increments `restart_count` and records
`last_restart_time`.  Time is in whole seconds; `trigger` abstracts
whether some check fires this tick.  The `restarts` field is a ghost
history of restart timestamps used to state the rolling-window claim. -/

structure WDState where
  time : Nat
  restart_count : Nat
  last_restart_time : Nat
  restarts : List Nat
  deriving Repr, DecidableEq

inductive WDAction
  | backoff
  | restarted
  | idle
  deriving Repr, DecidableEq

/-- Number of restarts in the rolling 5-minute window ending at `t`. -/
def windowCount (restarts : List Nat) (t : Nat) : Nat :=
  (restarts.filter (fun r => t - r < 300)).length

/-- One iteration of `_chrome_restart_watchdog`'s loop body. -/
def wdTick (s : WDState) (trigger : Bool) : WDState × WDAction :=
  let t := s.time + 60
  if t - s.last_restart_time < 300 then
    if 2 < s.restart_count then
      ({ s with time := t + 600, restart_count := 0 }, WDAction.backoff)
    else if trigger then
      ({ time := t, restart_count := s.restart_count + 1, last_restart_time := t,
         restarts := s.restarts ++ [t] }, WDAction.restarted)
    else
      ({ s with time := t }, WDAction.idle)
  else
    if trigger then
      ({ time := t, restart_count := 1, last_restart_time := t,
         restarts := s.restarts ++ [t] }, WDAction.restarted)
    else
      ({ s with time := t, restart_count := 0 }, WDAction.idle)

/-- Watchdog state at engine construction: `restart_count = 0`,
`last_restart_time = time.time()` (time origin). -/
def wdInit : WDState := ⟨0, 0, 0, []⟩

/-- The watchdog run on a finite schedule of tick trigger inputs. -/
def wdRun (inputs : List Bool) : WDState :=
  inputs.foldl (fun s b => (wdTick s b).1) wdInit

/-- Inductive invariant of the watchdog loop. -/
def WDInv (s : WDState) : Prop :=
  s.last_restart_time ≤ s.time ∧
  (∀ r ∈ s.restarts, r ≤ s.last_restart_time) ∧
  windowCount s.restarts s.time ≤ s.restart_count ∧
  s.restart_count ≤ 3

theorem windowCount_mono (rs : List Nat) (t t' : Nat) (ht : t ≤ t')
    (hall : ∀ r ∈ rs, r ≤ t) : windowCount rs t' ≤ windowCount rs t := by
  unfold windowCount
  induction rs with
  | nil => simp
  | cons a l ih =>
    have ha : a ≤ t := hall a (List.mem_cons_self a l)
    have hl : ∀ r ∈ l, r ≤ t := fun r hr => hall r (List.mem_cons_of_mem a hr)
    have hrec := ih hl
    by_cases h' : t' - a < 300
    · have h : t - a < 300 := by omega
      simp only [List.filter_cons, h, h', decide_True, if_true, List.length_cons]
      omega
    · by_cases h : t - a < 300
      · simp only [List.filter_cons, h, h', decide_True, decide_False,
          Bool.false_eq_true, if_false, if_true, List.length_cons]
        omega
      · simp only [List.filter_cons, h, h', decide_False, Bool.false_eq_true, if_false]
        omega

theorem windowCount_empty_of_old (rs : List Nat) (t : Nat)
    (h : ∀ r ∈ rs, 300 ≤ t - r) : windowCount rs t = 0 := by
  unfold windowCount
  rw [List.length_eq_zero, List.filter_eq_nil_iff]
  intro r hr
  have := h r hr
  simp only [decide_eq_true_eq]
  omega

theorem windowCount_append_self (rs : List Nat) (t : Nat) :
    windowCount (rs ++ [t]) t = windowCount rs t + 1 := by
  unfold windowCount
  simp

theorem wdTick_inv (s : WDState) (b : Bool) (h : WDInv s) : WDInv (wdTick s b).1 := by
  obtain ⟨hlt, hrs, hwc, hc3⟩ := h
  unfold wdTick
  dsimp only
  split
  · next hrecent =>
    split
    · next hcount =>
      refine ⟨by dsimp; omega, by dsimp; exact hrs, ?_, by dsimp; omega⟩
      dsimp only
      have : windowCount s.restarts (s.time + 60 + 600) = 0 := by
        apply windowCount_empty_of_old
        intro r hr
        have : r ≤ s.time := le_trans (hrs r hr) hlt
        omega
      omega
    · split
      · next hcount htr =>
        refine ⟨by dsimp; omega, ?_, ?_, by dsimp; omega⟩
        · dsimp only
          intro r hr
          rcases List.mem_append.mp hr with h' | h'
          · exact le_trans (le_trans (hrs r h') hlt) (by omega)
          · simp only [List.mem_singleton] at h'
            omega
        · dsimp only
          rw [windowCount_append_self]
          have := windowCount_mono s.restarts s.time (s.time + 60) (by omega)
            (fun r hr => le_trans (hrs r hr) hlt)
          omega
      · exact ⟨by dsimp; omega, by dsimp; exact hrs, by
          dsimp only
          exact le_trans (windowCount_mono s.restarts s.time (s.time + 60) (by omega)
            (fun r hr => le_trans (hrs r hr) hlt)) hwc, by dsimp; omega⟩
  · next hold =>
    split
    · next htr =>
      refine ⟨by dsimp; omega, ?_, ?_, by dsimp; omega⟩
      · dsimp only
        intro r hr
        rcases List.mem_append.mp hr with h' | h'
        · exact le_trans (le_trans (hrs r h') hlt) (by omega)
        · simp only [List.mem_singleton] at h'
          omega
      · dsimp only
        rw [windowCount_append_self]
        have : windowCount s.restarts (s.time + 60) = 0 := by
          apply windowCount_empty_of_old
          intro r hr
          have h1 : r ≤ s.last_restart_time := hrs r hr
          omega
        omega
    · refine ⟨by dsimp; omega, by dsimp; exact hrs, ?_, by dsimp; omega⟩
      dsimp only
      have : windowCount s.restarts (s.time + 60) = 0 := by
        apply windowCount_empty_of_old
        intro r hr
        have h1 : r ≤ s.last_restart_time := hrs r hr
        omega
      omega

theorem wdRun_inv (inputs : List Bool) : WDInv (wdRun inputs) := by
  have hgen : ∀ (l : List Bool) (s : WDState), WDInv s →
      WDInv (l.foldl (fun s b => (wdTick s b).1) s) := by
    intro l
    induction l with
    | nil => intro s hs; simpa using hs
    | cons b t ih => intro s hs; exact ih _ (wdTick_inv s b hs)
  have hinit : WDInv wdInit := ⟨by decide, by simp [wdInit], by decide, by decide⟩
  exact hgen inputs wdInit hinit

theorem windowCount_pos_last_recent (rs : List Nat) (t last : Nat)
    (hall : ∀ r ∈ rs, r ≤ last) (h : 0 < windowCount rs t) : t - last < 300 := by
  unfold windowCount at h
  rcases List.exists_mem_of_length_pos h with ⟨r, hr⟩
  have hr1 : r ∈ rs := List.mem_of_mem_filter hr
  have hr2 : t - r < 300 := by
    have := List.of_mem_filter hr
    simpa using this
  have := hall r hr1
  omega

/-- C2: for every execution of the restart watchdog, no more than 3
restarts ever lie in the rolling 5-minute window ending at the current
time — so once more than 2 restarts have accumulated in the window the
mandatory backoff precedes any further restart — and whenever more than 2
restarts have occurred within the last 5 minutes at an evaluation point,
that tick performs no restart: it sleeps the 60 s poll plus the 600 s
(10-minute) backoff and resets the window counter `restart_count` to 0,
leaving the restart history unchanged. -/
theorem restart_storm_backoff (inputs : List Bool) (b : Bool) :
    windowCount (wdRun inputs).restarts (wdRun inputs).time ≤ 3 ∧
    (2 < windowCount (wdRun inputs).restarts ((wdRun inputs).time + 60) →
      wdTick (wdRun inputs) b =
        ({ wdRun inputs with time := (wdRun inputs).time + 660, restart_count := 0 },
         WDAction.backoff)) := by
  obtain ⟨hlt, hrs, hwc, hc3⟩ := wdRun_inv inputs
  constructor
  · omega
  · intro hwin
    have hrecent : ((wdRun inputs).time + 60) - (wdRun inputs).last_restart_time < 300 := by
      apply windowCount_pos_last_recent (wdRun inputs).restarts _ _ hrs
      omega
    have hcount : 2 < (wdRun inputs).restart_count := by
      have hmono := windowCount_mono (wdRun inputs).restarts (wdRun inputs).time
        ((wdRun inputs).time + 60) (by omega)
        (fun r hr => le_trans (hrs r hr) hlt)
      omega
    unfold wdTick
    simp only [hrecent, hcount, if_pos]

/-- Witness for C2: three triggered restarts in a row put three restarts
inside the 5-minute window, and the next tick is the mandatory backoff. -/
theorem restart_storm_backoff_witness :
    wdTick (wdRun [true, true, true]) true =
      ({ (wdRun [true, true, true]) with
          time := (wdRun [true, true, true]).time + 660,
          restart_count := 0 }, WDAction.backoff) :=
  (restart_storm_backoff [true, true, true] true).2 (by decide)

/-! ## FallbackManager — src/JARVIS/audio/stt_fallback.py (`STTManager`)

`STTManager.__init__` sets `using_fallback = False`,
`recovery_attempts = 0`, `max_recovery_attempts = 5`; `fallback_available`
records whether the secondary recognizer initialized.  `listen` tries the
primary unless `using_fallback` holds; a primary exception calls
`_switch_to_fallback` (sets `using_fallback = True` and, if no recovery
thread is alive, starts `_recovery_loop`).  The recovery loop runs while
`recovery_attempts < max_recovery_attempts`: it waits
`min(30 * (recovery_attempts + 1), 300)` seconds, then attempts a primary
restart; success sets `using_fallback = False` and `recovery_attempts = 0`
and breaks, failure increments `recovery_attempts` by one. -/

def max_recovery_attempts : Nat := 5

structure MgrState where
  using_fallback : Bool
  fallback_available : Bool
  recovery_attempts : Nat
  primary_uses : Nat
  fallback_uses : Nat
  deriving Repr, DecidableEq

/-- Which recognizer produced the result of an `STTManager.listen` call. -/
inductive Route
  | primary
  | fallback
  | unavailable
  deriving Repr, DecidableEq

/-- `STTManager.listen` (stt_fallback.py lines 139-167).  `primaryOutcome`
and `fallbackOutcome` are the delegated `self.primary.listen()` and
`self.fallback.listen(...)` calls; `Except.error` is a raised exception.
A primary exception performs `_switch_to_fallback`'s state change inline
(`using_fallback := true`) and the same call then falls through to the
fallback branch. -/
def STTManager.listen (s : MgrState)
    (primaryOutcome fallbackOutcome : Except Unit (Option String)) :
    MgrState × Option String × Route :=
  if s.using_fallback = false then
    match primaryOutcome with
    | Except.ok r => ({ s with primary_uses := s.primary_uses + 1 }, r, Route.primary)
    | Except.error _ =>
      let s1 := { s with using_fallback := true }
      if s1.fallback_available then
        match fallbackOutcome with
        | Except.ok r => ({ s1 with fallback_uses := s1.fallback_uses + 1 }, r, Route.fallback)
        | Except.error _ => (s1, none, Route.fallback)
      else (s1, none, Route.unavailable)
  else
    if s.fallback_available then
      match fallbackOutcome with
      | Except.ok r => ({ s with fallback_uses := s.fallback_uses + 1 }, r, Route.fallback)
      | Except.error _ => (s, none, Route.fallback)
    else (s, none, Route.unavailable)

/-- `STTManager._recovery_loop` (stt_fallback.py lines 224-278).
`outcome n` is the result of `_attempt_primary_recovery` when
`recovery_attempts = n`.  Returns the final state together with the list
of wait times `min(30 * (recovery_attempts + 1), 300)` slept before each
attempt, in order.  `fuel` bounds the loop; `max_recovery_attempts`
iterations from a fresh switch make the bound exact. -/
def STTManager.recoveryLoop (outcome : Nat → Bool) :
    Nat → MgrState → MgrState × List Nat
  | 0, s => (s, [])
  | fuel + 1, s =>
    if s.recovery_attempts < max_recovery_attempts then
      let wait := min (30 * (s.recovery_attempts + 1)) 300
      if outcome s.recovery_attempts then
        ({ s with using_fallback := false, recovery_attempts := 0 }, [wait])
      else
        let next := STTManager.recoveryLoop outcome fuel
          { s with recovery_attempts := s.recovery_attempts + 1 }
        (next.1, wait :: next.2)
    else (s, [])

/-- C4: a primary `listen()` exception sets `using_fallback`; while
`using_fallback` holds and a secondary recognizer is available every
`listen()` call routes to the secondary, and no `listen()` call ever
clears `using_fallback`; the recovery loop started from a fresh switch
(`recovery_attempts = 0`) with all five attempts failing leaves
`using_fallback` exactly as it was (true stays true) with
`recovery_attempts = max_recovery_attempts`; and once the five attempts
are exhausted any further run of the recovery loop makes zero attempts
and changes nothing, so `using_fallback` stays true indefinitely. -/
theorem fallback_routing_until_exhaustion (s : MgrState)
    (p f : Except Unit (Option String)) (outcome : Nat → Bool) (fuel : Nat) :
    (s.using_fallback = false →
      (STTManager.listen s (Except.error ()) f).1.using_fallback = true) ∧
    (s.using_fallback = true → s.fallback_available = true →
      (STTManager.listen s p f).2.2 = Route.fallback) ∧
    (s.using_fallback = true → (STTManager.listen s p f).1.using_fallback = true) ∧
    ((∀ n, outcome n = false) → s.recovery_attempts = 0 →
      (STTManager.recoveryLoop outcome 5 s).1.using_fallback = s.using_fallback ∧
      (STTManager.recoveryLoop outcome 5 s).1.recovery_attempts = max_recovery_attempts) ∧
    (s.recovery_attempts = max_recovery_attempts →
      STTManager.recoveryLoop outcome fuel s = (s, [])) := by
  refine ⟨?_, ?_, ?_, ?_, ?_⟩
  · intro h
    cases f with
    | ok r =>
      by_cases hfa : s.fallback_available <;>
        simp [STTManager.listen, h, hfa]
    | error e =>
      by_cases hfa : s.fallback_available <;>
        simp [STTManager.listen, h, hfa]
  · intro h hfa
    cases f <;> simp [STTManager.listen, h, hfa]
  · intro h
    cases f <;> by_cases hfa : s.fallback_available <;>
      simp [STTManager.listen, h, hfa]
  · intro hfail h0
    simp [STTManager.recoveryLoop, h0, hfail, max_recovery_attempts]
  · intro h5
    cases fuel with
    | zero => simp [STTManager.recoveryLoop]
    | succ n => simp [STTManager.recoveryLoop, h5]

/-- Witness for C4 at concrete inputs: a primary failure flips the flag,
an exhausted manager's recovery loop is inert. -/
theorem fallback_routing_witness :
    (STTManager.listen ⟨false, true, 0, 0, 0⟩ (Except.error ())
      (Except.ok (some "hi"))).1.using_fallback = true ∧
    STTManager.recoveryLoop (fun _ => false) 7 ⟨true, true, 5, 0, 0⟩ =
      (⟨true, true, 5, 0, 0⟩, []) :=
  ⟨(fallback_routing_until_exhaustion ⟨false, true, 0, 0, 0⟩ (Except.error ())
      (Except.ok (some "hi")) (fun _ => false) 7).1 rfl,
   (fallback_routing_until_exhaustion ⟨true, true, 5, 0, 0⟩ (Except.error ())
      (Except.ok (some "hi")) (fun _ => false) 7).2.2.2.2 rfl⟩

/-- C5: in the recovery loop the wait before attempt n (n counted from 1)
is `min(30 * n, 300)` seconds — from a fresh switch the emitted wait
sequence is always a prefix-by-count of `30, 60, 90, ...` capped at 300,
so attempt 1 waits 30 s and attempt 2 waits 60 s; when every attempt
fails, the five waits are exactly 30, 60, 90, 120, 150 and each failed
attempt has incremented `recovery_attempts` by exactly 1 (ending at 5);
a successful attempt returns `using_fallback = false` and
`recovery_attempts = 0`. -/
theorem recovery_wait_schedule (outcome : Nat → Bool) (s : MgrState) :
    (∀ fuel, s.recovery_attempts = 0 →
      ∃ k, (STTManager.recoveryLoop outcome fuel s).2 =
        (List.range k).map (fun i => min (30 * (i + 1)) 300)) ∧
    (s.recovery_attempts = 0 → (∀ n, outcome n = false) →
      (STTManager.recoveryLoop outcome 5 s).2 = [30, 60, 90, 120, 150] ∧
      (STTManager.recoveryLoop outcome 5 s).1.recovery_attempts = 5) ∧
    (∀ fuel, s.recovery_attempts < max_recovery_attempts →
      outcome s.recovery_attempts = true →
      STTManager.recoveryLoop outcome (fuel + 1) s =
        ({ s with using_fallback := false, recovery_attempts := 0 },
         [min (30 * (s.recovery_attempts + 1)) 300])) := by
  refine ⟨?_, ?_, ?_⟩
  · have hgen : ∀ fuel a s', s'.recovery_attempts = a →
        ∃ k, (STTManager.recoveryLoop outcome fuel s').2 =
          (List.range' a k).map (fun i => min (30 * (i + 1)) 300) := by
      intro fuel
      induction fuel with
      | zero =>
        intro a s' ha
        exact ⟨0, by simp [STTManager.recoveryLoop]⟩
      | succ n ih =>
        intro a s' ha
        subst ha
        by_cases hlt : s'.recovery_attempts < max_recovery_attempts
        · by_cases hout : outcome s'.recovery_attempts
          · refine ⟨1, ?_⟩
            simp [STTManager.recoveryLoop, hlt, hout, List.range']
          · obtain ⟨k, hk⟩ := ih (s'.recovery_attempts + 1)
              { s' with recovery_attempts := s'.recovery_attempts + 1 } (by simp)
            refine ⟨k + 1, ?_⟩
            simp [STTManager.recoveryLoop, hlt, hout, List.range'_succ, hk]
        · exact ⟨0, by simp [STTManager.recoveryLoop, hlt]⟩
    intro fuel h0
    obtain ⟨k, hk⟩ := hgen fuel 0 s h0
    exact ⟨k, by simpa [List.range_eq_range'] using hk⟩
  · intro h0 hfail
    simp [STTManager.recoveryLoop, h0, hfail, max_recovery_attempts]
  · intro fuel hlt hout
    simp [STTManager.recoveryLoop, hlt, hout]

/-- Witness for C5: with the first attempt failing and the second
succeeding, the loop waits 30 s then 60 s and ends recovered. -/
theorem recovery_wait_schedule_witness :
    STTManager.recoveryLoop (fun n => n == 1) (4 + 1)
        ⟨true, true, 1, 0, 0⟩ =
      ({ (⟨true, true, 1, 0, 0⟩ : MgrState) with
          using_fallback := false, recovery_attempts := 0 },
       [min (30 * (1 + 1)) 300]) :=
  (recovery_wait_schedule (fun n => n == 1) ⟨true, true, 1, 0, 0⟩).2.2 4
    (by decide) (by decide)

/-! ## Performance-degradation restart — src/JARVIS/audio/stt.py lines
407-416 (inside `_chrome_restart_watchdog`) and lines 542-543 (the
recording of operation durations in `listen_for_wake_word`)

The watchdog fires a performance restart when
`len(operation_times) > 10` and
`sum(operation_times[-10:]) / 10 > operation_times[0] * 3.0`, and only
when not listening, not wake-word listening, and no restart is in
progress.  Durations are modelled as exact rationals. -/

/-- Recording one operation duration: `operation_times.append(op_time)`
followed by `if len(...) > 100: operation_times.pop(0)`. -/
def recordOperation (times : List ℚ) (d : ℚ) : List ℚ :=
  if 100 < (times ++ [d]).length then (times ++ [d]).drop 1 else times ++ [d]

/-- The degradation test of the restart watchdog (stt.py lines 407-409):
`operation_times[-10:]` is `drop (length - 10)`, the threshold
`performance_degradation_threshold` is 3.0. -/
def perfDegraded (times : List ℚ) : Bool :=
  if 10 < times.length then
    decide (times.headD 0 * 3 < (times.drop (times.length - 10)).sum / 10)
  else false

/-- The full trigger including the idle guard of stt.py line 411. -/
def perfRestartFires (times : List ℚ)
    (is_listening restart_in_progress wake_word_listening : Bool) : Bool :=
  perfDegraded times && !is_listening && !restart_in_progress && !wake_word_listening

/-- The claim's trigger condition, in the claim's own words: the average
of the last 10 recorded operation durations exceeds 3 times the
first-ever recorded duration (`firstEver` is the first duration ever
recorded, which the rolling list may have evicted). -/
def specPerfTrigger (firstEver : ℚ) (times : List ℚ) : Prop :=
  10 ≤ times.length ∧ firstEver * 3 < (times.reverse.take 10).sum / 10

/-- Exactly 10 recorded durations whose last-10 average (6.4) exceeds
3 times the first duration (1). -/
def perfTimes10 : List ℚ := [1, 7, 7, 7, 7, 7, 7, 7, 7, 7]

/-- The rolling list left after recording the 101 durations
`100, 4, 50, 50, ...`: the first-ever duration (100) has been evicted. -/
def perfEvictedTimes : List ℚ := 4 :: List.replicate 99 50

set_option maxRecDepth 10000 in
/-- Counterexample to C8.  (a) With exactly 10 recorded durations whose
last-10 average exceeds 3 times the first-ever duration, the claim says
the restart triggers, but the code requires strictly more than 10
entries and does not fire even with every guard idle.  (b) After the
100-entry cap evicts the first-ever duration (100), the code fires by
comparing against the oldest retained entry (4) although the last-10
average (50) does not exceed 3 times the first-ever duration. -/
theorem perf_trigger_counterexample :
    (specPerfTrigger 1 perfTimes10 ∧
      perfRestartFires perfTimes10 false false false = false) ∧
    (perfEvictedTimes = List.foldl recordOperation [] (100 :: 4 :: List.replicate 99 50) ∧
      perfRestartFires perfEvictedTimes false false false = true ∧
      ¬ specPerfTrigger 100 perfEvictedTimes) := by
  refine ⟨⟨⟨by norm_num [perfTimes10], ?_⟩, rfl⟩, rfl, ?_, ?_⟩
  · norm_num [perfTimes10]
  · have hd : perfEvictedTimes.drop (perfEvictedTimes.length - 10) =
        List.replicate 10 (50 : ℚ) := rfl
    have hh : perfEvictedTimes.headD 0 = (4 : ℚ) := rfl
    have hlen : (10 : Nat) < perfEvictedTimes.length := by
      norm_num [perfEvictedTimes]
    simp only [perfRestartFires, perfDegraded, hlen, if_pos, hd, hh,
      List.sum_replicate, Bool.not_false, Bool.and_true]
    rw [decide_eq_true_eq]
    norm_num [nsmul_eq_mul]
  · rintro ⟨-, h⟩
    have hr : perfEvictedTimes.reverse.take 10 = List.replicate 10 (50 : ℚ) := rfl
    rw [hr, List.sum_replicate] at h
    norm_num [nsmul_eq_mul] at h

/-- C8 as amended — changed only where the counterexample forces it: the
watchdog triggers a performance-degradation restart exactly when strictly
more than 10 durations are currently retained and the average of the last
10 exceeds 3 times the oldest currently-retained duration
(`operation_times[0]`, which is the first-ever duration only until the cap
evicts it or a restart clears the list), performing the restart only if
the engine is not listening or wake-word listening and no restart is in
progress; the recorded-durations list is a bounded rolling list capped at
100 entries with the oldest dropped first. -/
theorem perf_trigger_amended (times : List ℚ) (l r w : Bool) (ts : List ℚ) (d : ℚ) :
    (perfRestartFires times l r w = true ↔
      (10 < times.length ∧
        times.headD 0 * 3 < (times.reverse.take 10).sum / 10 ∧
        l = false ∧ r = false ∧ w = false)) ∧
    (ts.length ≤ 100 → (recordOperation ts d).length ≤ 100) ∧
    (ts.length = 100 → recordOperation ts d = ts.drop 1 ++ [d]) := by
  refine ⟨?_, ?_, ?_⟩
  · unfold perfRestartFires perfDegraded
    by_cases hlen : 10 < times.length
    · have hsum : (times.drop (times.length - 10)).sum = (times.reverse.take 10).sum := by
        have h10 : times.length - (times.length - 10) = 10 := by omega
        rw [← List.sum_reverse (times.drop (times.length - 10)), List.reverse_drop, h10]
      rw [if_pos hlen, hsum]
      constructor
      · intro h
        simp only [Bool.and_eq_true, Bool.not_eq_true', decide_eq_true_eq] at h
        exact ⟨hlen, h.1.1.1, h.1.1.2, h.1.2, h.2⟩
      · rintro ⟨-, havg, hl, hr, hw⟩
        simp only [hl, hr, hw, Bool.not_false, Bool.and_true, decide_eq_true_eq]
        exact havg
    · rw [if_neg hlen]
      simp only [Bool.false_and, Bool.false_eq_true, false_iff, not_and]
      intro h
      exact absurd h hlen
  · intro hle
    unfold recordOperation
    split
    · next h =>
      simp only [List.length_drop, List.length_append, List.length_singleton] at h ⊢
      omega
    · next h =>
      simp only [List.length_append, List.length_singleton] at h ⊢
      omega
  · intro h100
    unfold recordOperation
    rw [if_pos (by simp [h100])]
    rw [List.drop_append_of_le_length (by omega)]

/-- Witness for the amended C8: a list at the cap keeps length 100 and
drops its oldest entry when a new duration is recorded. -/
theorem perf_trigger_amended_witness :
    (recordOperation (List.replicate 100 (1 : ℚ)) 2).length ≤ 100 ∧
    recordOperation (List.replicate 100 (1 : ℚ)) 2 =
      (List.replicate 100 (1 : ℚ)).drop 1 ++ [2] :=
  ⟨(perf_trigger_amended [] false false false (List.replicate 100 (1 : ℚ)) 2).2.1
      (by simp),
   (perf_trigger_amended [] false false false (List.replicate 100 (1 : ℚ)) 2).2.2
      (by simp)⟩

/-! ## Microphone device watchdog — src/JARVIS/audio/stt.py lines 131-225
(`_mic_watchdog_event_driven`)

On a detected capability-loss event (the renderer's microphone flag goes
from held to lost while listening), the watchdog polls every 0.5 s for up
to 3 s — six polls — for automatic recovery; only if none of the polls
sees the capability back does it inject exactly one synthetic click on
the start control (inside a try/except whose failures are only logged).
`env k` is the capability flag observed at the k-th poll. -/

def micRecoveryPoll (env : Nat → Bool) : Nat → Nat → Bool
  | 0, _ => false
  | fuel + 1, k => if env k then true else micRecoveryPoll env fuel (k + 1)

/-- Number of synthetic reactivation attempts the watchdog makes for one
capability-loss event. -/
def micReactivationAttempts (env : Nat → Bool) : Nat :=
  if micRecoveryPoll env 6 1 then 0 else 1

theorem micRecoveryPoll_iff (env : Nat → Bool) :
    ∀ fuel k, micRecoveryPoll env fuel k = true ↔
      ∃ j, k ≤ j ∧ j < k + fuel ∧ env j = true := by
  intro fuel
  induction fuel with
  | zero =>
    intro k
    simp only [micRecoveryPoll]
    constructor
    · intro h
      simp at h
    · rintro ⟨j, h1, h2, -⟩
      omega
  | succ n ih =>
    intro k
    simp only [micRecoveryPoll]
    by_cases hk : env k
    · rw [if_pos hk]
      constructor
      · intro _
        exact ⟨k, le_refl k, by omega, hk⟩
      · intro _
        rfl
    · rw [if_neg hk, ih (k + 1)]
      constructor
      · rintro ⟨j, h1, h2, h3⟩
        exact ⟨j, by omega, by omega, h3⟩
      · rintro ⟨j, h1, h2, h3⟩
        have hjk : j ≠ k := by
          intro he
          rw [he] at h3
          exact hk h3
        exact ⟨j, by omega, by omega, h3⟩

/-- C9: for every capability-loss event observed while listening, the
device watchdog makes at most one synthetic reactivation attempt — zero
when some poll within the 3-second window (6 polls at 0.5 s) sees the
capability restored, and exactly one when no poll does. -/
theorem mic_watchdog_single_reactivation (env : Nat → Bool) :
    micReactivationAttempts env ≤ 1 ∧
    ((∃ k, 1 ≤ k ∧ k ≤ 6 ∧ env k = true) → micReactivationAttempts env = 0) ∧
    ((∀ k, env k = false) → micReactivationAttempts env = 1) := by
  refine ⟨?_, ?_, ?_⟩
  · unfold micReactivationAttempts
    split <;> omega
  · rintro ⟨k, h1, h2, h3⟩
    unfold micReactivationAttempts
    rw [if_pos ((micRecoveryPoll_iff env 6 1).mpr ⟨k, h1, by omega, h3⟩)]
  · intro hall
    unfold micReactivationAttempts
    rw [if_neg]
    intro h
    rcases (micRecoveryPoll_iff env 6 1).mp h with ⟨j, -, -, hj⟩
    rw [hall j] at hj
    exact absurd hj (by simp)

/-- Witness for C9: capability restored at the second poll means zero
attempts; capability never restored means exactly one attempt. -/
theorem mic_watchdog_witness :
    micReactivationAttempts (fun k => k == 2) = 0 ∧
    micReactivationAttempts (fun _ => false) = 1 :=
  ⟨(mic_watchdog_single_reactivation (fun k => k == 2)).2.1
      ⟨2, by omega, by omega, rfl⟩,
   (mic_watchdog_single_reactivation (fun _ => false)).2.2 (fun _ => rfl)⟩
